import Mathlib

/-
Verification of `homeassistant/components/sensor/rest.py`: a shallow
embedding of the REST sensor platform (setup, throttled GET/POST fetchers
with a cached value, and the publishing sensor entity), together with
theorems about its behaviour.

Python runtime values and exceptions are modelled explicitly: the fetcher
field `self.data` starts as an empty dict and is later reassigned to the
raw response body string, so the membership test `error in data`, the
deletion `del data[k]` and the item assignment `data[k] = v` behave
differently (and can raise `TypeError`) depending on which shape the value
currently has. Fallible code returns `Except PyExc`.
-/

set_option autoImplicit false

namespace RestPlatform

/-- Python exception classes relevant to `rest.py` and to the `requests`
library it calls. `connectTimeout` models `requests.exceptions.ConnectTimeout`,
which subclasses both `ConnectionError` and `Timeout`; `readTimeout` models
`requests.exceptions.ReadTimeout`, which subclasses `Timeout` but not
`ConnectionError`; `missingSchema` models `requests.exceptions.MissingSchema`.
`typeError` and `nameError` model the builtin `TypeError` and `NameError`
(with `UnboundLocalError` as a subclass of the latter). -/
inductive PyExc where
  | typeError
  | nameError
  | connectionError
  | connectTimeout
  | readTimeout
  | missingSchema
  | otherError
  deriving DecidableEq, Repr

/-- Which exceptions are caught by the clause
`except requests.exceptions.ConnectionError`: the class itself and its
subclass `ConnectTimeout`. -/
def PyExc.isConnErr : PyExc → Bool
  | .connectionError => true
  | .connectTimeout => true
  | _ => false

/-- Outcome of one HTTP request issued through the `requests` library:
either a response object (with its `ok` flag, `status_code` and `text`),
or a raised exception. -/
inductive ReqResult where
  | response (ok : Bool) (statusCode : Nat) (body : String)
  | exc (e : PyExc)
  deriving DecidableEq, Repr

/-- The Python value held in the fetcher field `self.data`: initially the
empty dict (`dict none`), a dict carrying the key `error` after a handled
connection failure (`dict (some v)`), or the raw response body string after
a successful fetch (`str s`). -/
inductive RData where
  | dict (err : Option String)
  | str (s : String)
  deriving DecidableEq, Repr

/-- Whether the character list `p` is an initial segment of `l`. -/
def startsList : List Char → List Char → Bool
  | [], _ => true
  | _ :: _, [] => false
  | p :: ps, c :: cs => p == c && startsList ps cs

/-- Whether the character list `p` occurs contiguously inside `l`. -/
def occursIn (p : List Char) : List Char → Bool
  | [] => startsList p []
  | c :: cs => startsList p (c :: cs) || occursIn p cs

/-- The Python membership test `pat in s` on strings: contiguous substring
containment. -/
def pyInStr (pat s : String) : Bool :=
  occursIn pat.toList s.toList

/-- The Python test `error in data` on the fetcher data value: key
membership when the value is a dict, substring containment when the value
is a string. -/
def RData.hasError : RData → Bool
  | .dict err => err.isSome
  | .str s => pyInStr "error" s

/-- `DEFAULT_NAME` from `rest.py`. -/
def DEFAULT_NAME : String := "REST Sensor"

/-- `DEFAULT_METHOD` from `rest.py`. -/
def DEFAULT_METHOD : String := "GET"

/-- `MIN_TIME_BETWEEN_UPDATES = timedelta(seconds=60)`, measured in
seconds. -/
def MIN_TIME_BETWEEN_UPDATES : Nat := 60

/-- Modelled from the spec: the state kept by the `Throttle` decorator from
`homeassistant.util`, which is not part of this repository source tree —
the timestamp of the last executed invocation of the gated operation
(`none` before the first execution). -/
structure ThrottleState where
  lastRun : Option Nat
  deriving DecidableEq, Repr

/-- Modelled from the spec: the gate test of the `Throttle` decorator from
`homeassistant.util` (not in this repository source tree). The first call
always executes; a later call executes only when at least the minimum
interval has elapsed since the last executed call. -/
def throttleAllows (interval : Nat) (ts : ThrottleState) (now : Nat) : Bool :=
  match ts.lastRun with
  | none => true
  | some l => decide (interval ≤ now - l)

/-- The observable description of one HTTP request issued through
`requests`: method, target URL, optional request body, timeout in seconds
and TLS verification flag. -/
structure HttpRequest where
  method : String
  url : Option String
  body : Option String
  timeout : Nat
  verify : Bool
  deriving DecidableEq, Repr

/-- The shared body of `RestDataGet.update` and `RestDataPost.update`
after the throttle gate, acting on the current `self.data` and the request
outcome. On a response: `if error in self.data: del self.data[k]` — the
deletion raises `TypeError` when `self.data` is a string — then
`self.data = response.text`. On a raised exception: only
`ConnectionError` (with its subclasses) is caught, and the handler runs
`self.data[k] = v` with the sentinel `N/A`, which raises `TypeError` when
`self.data` is a string; every other exception propagates. -/
def restDataFetch (data : RData) (res : ReqResult) : Except PyExc RData :=
  match res with
  | .response _ _ body =>
    if data.hasError then
      match data with
      | .dict _ => Except.ok (.str body)
      | .str _ => Except.error .typeError
    else Except.ok (.str body)
  | .exc e =>
    if e.isConnErr then
      match data with
      | .dict _ => Except.ok (.dict (some "N/A"))
      | .str _ => Except.error .typeError
    else Except.error e

/-- The state of a `RestDataGet` instance: constructor arguments, the
cached `data` value and the throttle state of its decorated `update`. -/
structure RestDataGet where
  resource : Option String
  verifySsl : Bool
  data : RData
  throttle : ThrottleState
  deriving DecidableEq, Repr

/-- `RestDataGet.__init__`: store the resource and TLS flag and set
`self.data = dict()`; the throttle has not run yet. -/
def RestDataGet.init (resource : Option String) (verifySsl : Bool) : RestDataGet :=
  { resource := resource, verifySsl := verifySsl, data := .dict none,
    throttle := { lastRun := none } }

/-- `RestDataGet.update` (throttled). `now` is the wall-clock call time and
`res` the outcome the environment gives the HTTP request, should one be
issued. Returns the request issued (if any) and either the successor state
or the escaping exception. When the gate is closed the call is a no-op;
when the wrapped body completes the throttle records `now`. -/
def RestDataGet.update (st : RestDataGet) (now : Nat) (res : ReqResult) :
    Option HttpRequest × Except PyExc RestDataGet :=
  if throttleAllows MIN_TIME_BETWEEN_UPDATES st.throttle now then
    (some { method := "GET", url := st.resource, body := none, timeout := 10,
            verify := st.verifySsl },
     match restDataFetch st.data res with
     | .ok d => Except.ok { st with data := d, throttle := { lastRun := some now } }
     | .error e => Except.error e)
  else (none, Except.ok st)

/-- The state of a `RestDataPost` instance: constructor arguments
(including the fixed payload), the cached `data` value and the throttle
state of its decorated `update`. -/
structure RestDataPost where
  resource : Option String
  payload : Option String
  verifySsl : Bool
  data : RData
  throttle : ThrottleState
  deriving DecidableEq, Repr

/-- `RestDataPost.__init__`: store the resource, payload and TLS flag and
set `self.data = dict()`; the throttle has not run yet. -/
def RestDataPost.init (resource : Option String) (payload : Option String)
    (verifySsl : Bool) : RestDataPost :=
  { resource := resource, payload := payload, verifySsl := verifySsl,
    data := .dict none, throttle := { lastRun := none } }

/-- `RestDataPost.update` (throttled): as `RestDataGet.update`, except the
issued request is a POST carrying `self._payload` as its body. -/
def RestDataPost.update (st : RestDataPost) (now : Nat) (res : ReqResult) :
    Option HttpRequest × Except PyExc RestDataPost :=
  if throttleAllows MIN_TIME_BETWEEN_UPDATES st.throttle now then
    (some { method := "POST", url := st.resource, body := st.payload, timeout := 10,
            verify := st.verifySsl },
     match restDataFetch st.data res with
     | .ok d => Except.ok { st with data := d, throttle := { lastRun := some now } }
     | .error e => Except.error e)
  else (none, Except.ok st)

/-- The fetcher handed to `RestSensor`: either a `RestDataGet` or a
`RestDataPost` instance. -/
inductive RestData where
  | get (g : RestDataGet)
  | post (p : RestDataPost)
  deriving DecidableEq, Repr

/-- The `data` attribute of the fetcher. -/
def RestData.data : RestData → RData
  | .get g => g.data
  | .post p => p.data

/-- The throttle timestamp of the fetcher. -/
def RestData.lastRun : RestData → Option Nat
  | .get g => g.throttle.lastRun
  | .post p => p.throttle.lastRun

/-- Dispatch `update` to the underlying fetcher class. -/
def RestData.update : RestData → Nat → ReqResult → Option HttpRequest × Except PyExc RestData
  | .get g, now, res =>
    match g.update now res with
    | (req, .ok g2) => (req, Except.ok (.get g2))
    | (req, .error e) => (req, Except.error e)
  | .post p, now, res =>
    match p.update now res with
    | (req, .ok p2) => (req, Except.ok (.post p2))
    | (req, .error e) => (req, Except.error e)

/-- Modelled from the spec: a configured value template, treated as the
external collaborator interface of `homeassistant.util.template` — a
deterministic function from the value to an optional rendered string. -/
def Tmpl : Type := RData → Option String

/-- Modelled from the spec: `template.render_with_possible_json_value`
from `homeassistant.util` (not in this repository source tree) applies the
template to the value and falls back to the supplied default when the
template yields nothing; `rest.py` passes the default `N/A`. -/
def renderWithPossibleJsonValue (t : Tmpl) (value : RData) (dflt : String) : String :=
  match t value with
  | some s => s
  | none => dflt

/-- The state of a `RestSensor` entity. `_state` starts as the placeholder
string `n/a`; it holds whatever Python value `update` assigns, so it is an
`RData`. -/
structure RestSensor where
  name : String
  unitOfMeasurement : Option String
  valueTemplate : Option Tmpl
  rest : RestData
  state : RData

/-- Lines 104 to 112 of `RestSensor.update`: read `value = self.rest.data`;
if `error in value` (key membership on a dict, substring containment on a
string) publish `value[k]` — an index read that raises `TypeError` when
`value` is a string — otherwise publish the raw value, or its template
rendering when a template is configured. -/
def RestSensor.publish (s : RestSensor) : Except PyExc RestSensor :=
  match s.rest.data with
  | .dict (some ev) => Except.ok { s with state := .str ev }
  | .dict none =>
    match s.valueTemplate with
    | some t =>
      Except.ok { s with state := .str (renderWithPossibleJsonValue t (.dict none) "N/A") }
    | none => Except.ok { s with state := .dict none }
  | .str v =>
    if pyInStr "error" v then Except.error .typeError
    else
      match s.valueTemplate with
      | some t =>
        Except.ok { s with state := .str (renderWithPossibleJsonValue t (.str v) "N/A") }
      | none => Except.ok { s with state := .str v }

/-- `RestSensor.update`: call `self.rest.update()` (an exception there
escapes), then publish from `self.rest.data`. The first component is the
HTTP request the fetcher issued, if any. -/
def RestSensor.update (s : RestSensor) (now : Nat) (res : ReqResult) :
    Option HttpRequest × Except PyExc RestSensor :=
  match s.rest.update now res with
  | (req, .error e) => (req, Except.error e)
  | (req, .ok rest2) => (req, RestSensor.publish { s with rest := rest2 })

/-- `RestSensor.__init__`: set the fields, initialise `_state` to the
placeholder `n/a`, then call `self.update()` once before returning. `now`
and `res` describe the environment of that first update. -/
def RestSensor.init (rest : RestData) (name : String) (unit : Option String)
    (vt : Option Tmpl) (now : Nat) (res : ReqResult) :
    Option HttpRequest × Except PyExc RestSensor :=
  RestSensor.update
    { name := name, unitOfMeasurement := unit, valueTemplate := vt,
      rest := rest, state := .str "n/a" } now res

/-- The configuration keys read by `setup_platform`, each as handed back
by `config.get` before its default is applied. -/
structure Config where
  resource : Option String
  method : Option String
  payload : Option String
  verifySsl : Option Bool
  name : Option String
  unitOfMeasurement : Option String
  valueTemplate : Option Tmpl

/-- What `setup_platform` did when no exception escaped: returned `False`,
or called `add_devices` with one freshly built `RestSensor` (and returned
`None`). -/
inductive SetupResult where
  | failed
  | added (sensor : RestSensor)

/-- `setup_platform`: read the configuration with its defaults, issue one
preflight request (outcome `pre`), and on an ok response construct the
fetcher and register one `RestSensor`, whose constructor performs a first
update in environment (`now`, `res`). `Except.error` models an uncaught
exception escaping `setup_platform`. The `except` clauses catch only
`MissingSchema` and `ConnectionError`, each logging and returning `False`;
a non-ok preflight response logs the status code and returns `False`. With
a method other than GET and POST no request is issued, and evaluating
`response.ok` reads the never-assigned local `response`, raising
`UnboundLocalError` (a `NameError`). -/
def setup_platform (cfg : Config) (pre : ReqResult) (now : Nat) (res : ReqResult) :
    Except PyExc SetupResult :=
  let method := cfg.method.getD DEFAULT_METHOD
  let use_get := method = "GET"
  let use_post := method = "POST"
  if use_get ∨ use_post then
    match pre with
    | .response ok _ _ =>
      if !ok then Except.ok .failed
      else
        let rest : RestData :=
          if use_get then .get (RestDataGet.init cfg.resource (cfg.verifySsl.getD true))
          else .post (RestDataPost.init cfg.resource cfg.payload (cfg.verifySsl.getD true))
        match (RestSensor.init rest (cfg.name.getD DEFAULT_NAME) cfg.unitOfMeasurement
                cfg.valueTemplate now res).2 with
        | .ok s => Except.ok (.added s)
        | .error e => Except.error e
    | .exc e =>
      if e = .missingSchema then Except.ok .failed
      else if e.isConnErr then Except.ok .failed
      else Except.error e
  else Except.error .nameError

/-- C1: the claim says a connection-level failure during a steady-state poll
always replaces the cache with the sentinel and publishes it with no escaping
exception, for every prior cache state including a previously fetched body
string. At that very input — cache `str "42.5"`, open throttle gate,
connection error — the handler `self.data[k] = v` is an item assignment on a
string, so the fetcher raises `TypeError`, and the exception escapes
`RestSensor.update` instead of the sentinel being published. -/
theorem c1_connection_failure_bug_eval :
    (RestDataGet.update
        { resource := some "http://x", verifySsl := true, data := .str "42.5",
          throttle := { lastRun := some 0 } } 100 (.exc .connectionError)).2
      = Except.error PyExc.typeError
    ∧ (RestSensor.update
        { name := "REST Sensor", unitOfMeasurement := none, valueTemplate := none,
          rest := .get { resource := some "http://x", verifySsl := true,
                         data := .str "42.5", throttle := { lastRun := some 0 } },
          state := .str "42.5" } 100 (.exc .connectionError)).2
      = Except.error PyExc.typeError :=
  ⟨rfl, rfl⟩

/-- C3: the claim says that with no template every successful fetch publishes
the raw body verbatim, for every possible body. The spec example body `42.5`
is indeed published verbatim, but a body containing the substring `error`
(here `error: none`) makes `RestSensor.update` evaluate `value[k]` on a
string, raising `TypeError` that escapes instead of publishing the body. -/
theorem c3_raw_body_publish_eval :
    (RestSensor.update
        { name := "REST Sensor", unitOfMeasurement := none, valueTemplate := none,
          rest := .get { resource := some "http://x", verifySsl := true,
                         data := .dict none, throttle := { lastRun := none } },
          state := .str "n/a" } 0 (.response true 200 "error: none")).2
      = Except.error PyExc.typeError
    ∧ (RestSensor.update
        { name := "REST Sensor", unitOfMeasurement := none, valueTemplate := none,
          rest := .get { resource := some "http://x", verifySsl := true,
                         data := .dict none, throttle := { lastRun := none } },
          state := .str "n/a" } 0 (.response true 200 "42.5")).2
      = Except.ok
        { name := "REST Sensor", unitOfMeasurement := none, valueTemplate := none,
          rest := .get { resource := some "http://x", verifySsl := true,
                         data := .str "42.5", throttle := { lastRun := some 0 } },
          state := .str "42.5" } :=
  ⟨rfl, rfl⟩

/-- C5: whenever the cached value is a body string containing the substring
`error`, an update call that passes the throttle gate raises `TypeError` in
both branches, for the GET and the POST fetcher alike: the success branch
attempts `del` on a string, the connection-failure branch attempts item
assignment on a string. -/
theorem c5_string_cache_type_error (g : RestDataGet) (p : RestDataPost) (now : Nat)
    (v w : String) (ok : Bool) (code : Nat) (body : String)
    (hgv : g.data = .str v) (hv : pyInStr "error" v = true)
    (hgate : throttleAllows MIN_TIME_BETWEEN_UPDATES g.throttle now = true)
    (hpw : p.data = .str w) (hw : pyInStr "error" w = true)
    (hpgate : throttleAllows MIN_TIME_BETWEEN_UPDATES p.throttle now = true) :
    (g.update now (.response ok code body)).2 = Except.error PyExc.typeError
    ∧ (g.update now (.exc .connectionError)).2 = Except.error PyExc.typeError
    ∧ (p.update now (.response ok code body)).2 = Except.error PyExc.typeError
    ∧ (p.update now (.exc .connectionError)).2 = Except.error PyExc.typeError := by
  refine ⟨?_, ?_, ?_, ?_⟩ <;>
    simp [RestDataGet.update, RestDataPost.update, hgate, hpgate, restDataFetch,
      RData.hasError, hgv, hpw, hv, hw, PyExc.isConnErr]

/-- C5 witness: concrete evaluation at cache `error: none` with a fresh
throttle. -/
theorem c5_string_cache_type_error_witness :
    (RestDataGet.update
        { resource := some "http://x", verifySsl := true, data := .str "error: none",
          throttle := { lastRun := none } } 5 (.response true 200 "x")).2
      = Except.error PyExc.typeError
    ∧ (RestDataGet.update
        { resource := some "http://x", verifySsl := true, data := .str "error: none",
          throttle := { lastRun := none } } 5 (.exc .connectionError)).2
      = Except.error PyExc.typeError
    ∧ (RestDataPost.update
        { resource := some "http://x", payload := some "foo=bar", verifySsl := true,
          data := .str "error: none", throttle := { lastRun := none } } 5
        (.response true 200 "x")).2 = Except.error PyExc.typeError
    ∧ (RestDataPost.update
        { resource := some "http://x", payload := some "foo=bar", verifySsl := true,
          data := .str "error: none", throttle := { lastRun := none } } 5
        (.exc .connectionError)).2 = Except.error PyExc.typeError :=
  c5_string_cache_type_error
    { resource := some "http://x", verifySsl := true, data := .str "error: none",
      throttle := { lastRun := none } }
    { resource := some "http://x", payload := some "foo=bar", verifySsl := true,
      data := .str "error: none", throttle := { lastRun := none } }
    5 "error: none" "error: none" true 200 "x" rfl rfl rfl rfl rfl rfl

/-- C10: with a configured method that is neither GET nor POST, no branch of
the preflight `try` block assigns `response`, so evaluating `response.ok`
raises `UnboundLocalError` (a `NameError`) that escapes `setup_platform`: no
default to GET, no clean `False`, no entity registered. -/
theorem c10_invalid_method_raises (cfg : Config) (pre : ReqResult) (now : Nat)
    (res : ReqResult)
    (h1 : cfg.method.getD DEFAULT_METHOD ≠ "GET")
    (h2 : cfg.method.getD DEFAULT_METHOD ≠ "POST") :
    setup_platform cfg pre now res = Except.error PyExc.nameError := by
  simp [setup_platform, h1, h2]

/-- C10 witness: concrete evaluation at method `PUT`. -/
theorem c10_invalid_method_raises_witness :
    setup_platform
      { resource := some "http://x", method := some "PUT", payload := none,
        verifySsl := none, name := none, unitOfMeasurement := none,
        valueTemplate := none } (.response true 200 "") 0 (.response true 200 "")
      = Except.error PyExc.nameError :=
  c10_invalid_method_raises
    { resource := some "http://x", method := some "PUT", payload := none,
      verifySsl := none, name := none, unitOfMeasurement := none,
      valueTemplate := none } (.response true 200 "") 0 (.response true 200 "")
    (by decide) (by decide)

/-- C2: the throttle gate of the fetcher `update`. The first call (no
recorded run) always issues the request; a call strictly within the minimum
interval of the last executed call issues no request and leaves the whole
state, cache included, unchanged; an executed call records its time; and a
call that issues a request happens either as the first call or at least the
minimum interval after the last executed one. -/
theorem c2_throttle_gate (st : RestDataGet) (now : Nat) (res : ReqResult) :
    (st.throttle.lastRun = none → ((st.update now res).1).isSome = true)
    ∧ (∀ l, st.throttle.lastRun = some l → now - l < MIN_TIME_BETWEEN_UPDATES →
        st.update now res = (none, Except.ok st))
    ∧ (∀ req st2, st.update now res = (some req, Except.ok st2) →
        st2.throttle.lastRun = some now)
    ∧ (((st.update now res).1).isSome = true →
        st.throttle.lastRun = none ∨
          ∃ l, st.throttle.lastRun = some l ∧ MIN_TIME_BETWEEN_UPDATES ≤ now - l) := by
  refine ⟨?_, ?_, ?_, ?_⟩
  · intro h
    simp [RestDataGet.update, throttleAllows, h]
  · intro l hl hlt
    have hgate : throttleAllows MIN_TIME_BETWEEN_UPDATES st.throttle now = false := by
      simp [throttleAllows, hl]
      omega
    simp [RestDataGet.update, hgate]
  · intro req st2 h
    by_cases hgate : throttleAllows MIN_TIME_BETWEEN_UPDATES st.throttle now = true
    · cases hf : restDataFetch st.data res with
      | ok d =>
        simp [RestDataGet.update, hgate, hf] at h
        rw [← h.2]
      | error e =>
        simp [RestDataGet.update, hgate, hf] at h
    · simp [RestDataGet.update, hgate] at h
  · intro h
    by_cases hgate : throttleAllows MIN_TIME_BETWEEN_UPDATES st.throttle now = true
    · cases hl : st.throttle.lastRun with
      | none => exact Or.inl rfl
      | some l =>
        refine Or.inr ⟨l, rfl, ?_⟩
        simpa [throttleAllows, hl] using hgate
    · simp [RestDataGet.update, hgate] at h

/-- C2 witness: concrete evaluation — a first call executes, a call 30
seconds after an executed call is a no-op with the cache unchanged, the
executed call records its time, and an executed call implies the gate was
open. -/
theorem c2_throttle_gate_witness :
    (((RestDataGet.init (some "http://x") true).update 0 (.response true 200 "42.5")).1).isSome
      = true
    ∧ RestDataGet.update
        { resource := some "http://x", verifySsl := true, data := .str "42.5",
          throttle := { lastRun := some 0 } } 30 (.response true 200 "7")
      = (none, Except.ok
          { resource := some "http://x", verifySsl := true, data := .str "42.5",
            throttle := { lastRun := some 0 } })
    ∧ ({ resource := some "http://x", verifySsl := true, data := .str "42.5",
         throttle := { lastRun := some 0 } } : RestDataGet).throttle.lastRun = some 0
    ∧ ((RestDataGet.init (some "http://x") true).throttle.lastRun = none
        ∨ ∃ l, (RestDataGet.init (some "http://x") true).throttle.lastRun = some l
            ∧ MIN_TIME_BETWEEN_UPDATES ≤ 0 - l) :=
  ⟨(c2_throttle_gate (RestDataGet.init (some "http://x") true) 0
      (.response true 200 "42.5")).1 rfl,
   (c2_throttle_gate
      { resource := some "http://x", verifySsl := true, data := .str "42.5",
        throttle := { lastRun := some 0 } } 30 (.response true 200 "7")).2.1 0 rfl
      (by decide),
   (c2_throttle_gate (RestDataGet.init (some "http://x") true) 0
      (.response true 200 "42.5")).2.2.1
      { method := "GET", url := some "http://x", body := none, timeout := 10,
        verify := true }
      { resource := some "http://x", verifySsl := true, data := .str "42.5",
        throttle := { lastRun := some 0 } } rfl,
   (c2_throttle_gate (RestDataGet.init (some "http://x") true) 0
      (.response true 200 "42.5")).2.2.2 rfl⟩

/-- C4: the claim says a poll exceeding the 10-second timeout is handled like
a connection failure. At the concrete input — fresh GET fetcher, request
raising `ReadTimeout` (a `Timeout` that is not a `ConnectionError`) — the
exception propagates out of `update` instead of being logged and replaced by
the sentinel: the narrow `except ConnectionError` clause does not catch it. -/
theorem c4_read_timeout_counterexample :
    ((RestDataGet.init (some "http://x") true).update 0 (.exc .readTimeout)).2
      = Except.error PyExc.readTimeout
    ∧ ((RestDataGet.init (some "http://x") true).update 0 (.exc .readTimeout)).2
      ≠ Except.ok
          { resource := some "http://x", verifySsl := true,
            data := .dict (some "N/A"), throttle := { lastRun := some 0 } } :=
  ⟨rfl, fun h => nomatch h⟩

/-- C4 amended: only timeouts that are subclasses of `ConnectionError`
(connect-phase timeouts, `ConnectTimeout`) are handled identically to a
connection failure; a read-phase timeout (`ReadTimeout`) is not caught and
propagates out of the fetcher `update` whenever the throttle gate is open,
for the GET and the POST fetcher alike. -/
theorem c4_timeout_handling (g : RestDataGet) (p : RestDataPost) (now : Nat) :
    g.update now (.exc .connectTimeout) = g.update now (.exc .connectionError)
    ∧ p.update now (.exc .connectTimeout) = p.update now (.exc .connectionError)
    ∧ (throttleAllows MIN_TIME_BETWEEN_UPDATES g.throttle now = true →
        (g.update now (.exc .readTimeout)).2 = Except.error PyExc.readTimeout)
    ∧ (throttleAllows MIN_TIME_BETWEEN_UPDATES p.throttle now = true →
        (p.update now (.exc .readTimeout)).2 = Except.error PyExc.readTimeout) := by
  refine ⟨?_, ?_, ?_, ?_⟩
  · simp [RestDataGet.update, restDataFetch, PyExc.isConnErr]
  · simp [RestDataPost.update, restDataFetch, PyExc.isConnErr]
  · intro h
    simp [RestDataGet.update, h, restDataFetch, PyExc.isConnErr]
  · intro h
    simp [RestDataPost.update, h, restDataFetch, PyExc.isConnErr]

/-- C4 witness: concrete evaluation of the amended statement on fresh GET and
POST fetchers. -/
theorem c4_timeout_handling_witness :
    (RestDataGet.init (some "http://x") true).update 3 (.exc .connectTimeout)
      = (RestDataGet.init (some "http://x") true).update 3 (.exc .connectionError)
    ∧ (RestDataPost.init (some "http://x") (some "foo=bar") true).update 3
        (.exc .connectTimeout)
      = (RestDataPost.init (some "http://x") (some "foo=bar") true).update 3
        (.exc .connectionError)
    ∧ ((RestDataGet.init (some "http://x") true).update 3 (.exc .readTimeout)).2
      = Except.error PyExc.readTimeout
    ∧ ((RestDataPost.init (some "http://x") (some "foo=bar") true).update 3
        (.exc .readTimeout)).2 = Except.error PyExc.readTimeout :=
  ⟨(c4_timeout_handling (RestDataGet.init (some "http://x") true)
      (RestDataPost.init (some "http://x") (some "foo=bar") true) 3).1,
   (c4_timeout_handling (RestDataGet.init (some "http://x") true)
      (RestDataPost.init (some "http://x") (some "foo=bar") true) 3).2.1,
   (c4_timeout_handling (RestDataGet.init (some "http://x") true)
      (RestDataPost.init (some "http://x") (some "foo=bar") true) 3).2.2.1 rfl,
   (c4_timeout_handling (RestDataGet.init (some "http://x") true)
      (RestDataPost.init (some "http://x") (some "foo=bar") true) 3).2.2.2 rfl⟩

/-- C6: with a valid method, every setup attempt whose preflight request
raises a connection error, raises `MissingSchema`, or returns a non-ok
response makes `setup_platform` return `False` after logging; no entity is
registered and `add_devices` is never reached on these paths. -/
theorem c6_setup_error_paths (cfg : Config) (now : Nat) (res : ReqResult)
    (code : Nat) (body : String)
    (hm : cfg.method.getD DEFAULT_METHOD = "GET"
        ∨ cfg.method.getD DEFAULT_METHOD = "POST") :
    setup_platform cfg (.exc .connectionError) now res = Except.ok SetupResult.failed
    ∧ setup_platform cfg (.exc .missingSchema) now res = Except.ok SetupResult.failed
    ∧ setup_platform cfg (.response false code body) now res
        = Except.ok SetupResult.failed := by
  rcases hm with h | h <;>
    exact ⟨by simp [setup_platform, h, PyExc.isConnErr],
           by simp [setup_platform, h],
           by simp [setup_platform, h]⟩

/-- C6 witness: concrete evaluation with the default method GET on the three
error paths. -/
theorem c6_setup_error_paths_witness :
    setup_platform
      { resource := some "http://x", method := none, payload := none,
        verifySsl := none, name := none, unitOfMeasurement := none,
        valueTemplate := none } (.exc .connectionError) 0 (.response true 200 "42.5")
      = Except.ok SetupResult.failed
    ∧ setup_platform
      { resource := some "http://x", method := none, payload := none,
        verifySsl := none, name := none, unitOfMeasurement := none,
        valueTemplate := none } (.exc .missingSchema) 0 (.response true 200 "42.5")
      = Except.ok SetupResult.failed
    ∧ setup_platform
      { resource := some "http://x", method := none, payload := none,
        verifySsl := none, name := none, unitOfMeasurement := none,
        valueTemplate := none } (.response false 404 "gone") 0 (.response true 200 "42.5")
      = Except.ok SetupResult.failed :=
  c6_setup_error_paths
    { resource := some "http://x", method := none, payload := none,
      verifySsl := none, name := none, unitOfMeasurement := none,
      valueTemplate := none } 0 (.response true 200 "42.5") 404 "gone" (Or.inl rfl)

/-- C7: the POST fetcher stores its payload at construction, every request it
issues is a POST carrying exactly the stored payload, no update changes the
stored payload, and every request the GET fetcher issues is a GET with no
body. -/
theorem c7_fixed_payload (resource payload : Option String) (ssl : Bool)
    (g : RestDataGet) (p : RestDataPost) (now : Nat) (res : ReqResult)
    (req req2 : HttpRequest) :
    (RestDataPost.init resource payload ssl).payload = payload
    ∧ ((p.update now res).1 = some req →
        req = { method := "POST", url := p.resource, body := p.payload,
                timeout := 10, verify := p.verifySsl })
    ∧ (∀ p2, (p.update now res).2 = Except.ok p2 → p2.payload = p.payload)
    ∧ ((g.update now res).1 = some req2 → req2.method = "GET" ∧ req2.body = none) := by
  refine ⟨rfl, ?_, ?_, ?_⟩
  · intro h
    by_cases hgate : throttleAllows MIN_TIME_BETWEEN_UPDATES p.throttle now = true
    · simp [RestDataPost.update, hgate] at h
      exact h.symm
    · simp [RestDataPost.update, hgate] at h
  · intro p2 h
    by_cases hgate : throttleAllows MIN_TIME_BETWEEN_UPDATES p.throttle now = true
    · cases hf : restDataFetch p.data res with
      | ok d =>
        simp [RestDataPost.update, hgate, hf] at h
        rw [← h]
      | error e =>
        simp [RestDataPost.update, hgate, hf] at h
    · simp [RestDataPost.update, hgate] at h
      rw [← h]
  · intro h
    by_cases hgate : throttleAllows MIN_TIME_BETWEEN_UPDATES g.throttle now = true
    · simp [RestDataGet.update, hgate] at h
      rw [← h]
      exact ⟨rfl, rfl⟩
    · simp [RestDataGet.update, hgate] at h

/-- C7 witness: concrete evaluation — the constructed POST fetcher with
payload `foo=bar` stores it, its executed fetch issues exactly that POST, the
payload survives the update, and the GET fetch carries no body. -/
theorem c7_fixed_payload_witness :
    (RestDataPost.init (some "http://x") (some "foo=bar") true).payload = some "foo=bar"
    ∧ ({ method := "POST", url := some "http://x", body := some "foo=bar",
         timeout := 10, verify := true } : HttpRequest)
      = { method := "POST",
          url := (RestDataPost.init (some "http://x") (some "foo=bar") true).resource,
          body := (RestDataPost.init (some "http://x") (some "foo=bar") true).payload,
          timeout := 10,
          verify := (RestDataPost.init (some "http://x") (some "foo=bar") true).verifySsl }
    ∧ RestDataPost.payload
        { resource := some "http://x", payload := some "foo=bar", verifySsl := true,
          data := .str "x", throttle := { lastRun := some 0 } }
      = (RestDataPost.init (some "http://x") (some "foo=bar") true).payload
    ∧ (({ method := "GET", url := some "http://x", body := none, timeout := 10,
          verify := true } : HttpRequest).method = "GET"
        ∧ ({ method := "GET", url := some "http://x", body := none, timeout := 10,
             verify := true } : HttpRequest).body = none) :=
  ⟨(c7_fixed_payload (some "http://x") (some "foo=bar") true
      (RestDataGet.init (some "http://x") true)
      (RestDataPost.init (some "http://x") (some "foo=bar") true) 0
      (.response true 200 "x")
      { method := "POST", url := some "http://x", body := some "foo=bar",
        timeout := 10, verify := true }
      { method := "GET", url := some "http://x", body := none, timeout := 10,
        verify := true }).1,
   (c7_fixed_payload (some "http://x") (some "foo=bar") true
      (RestDataGet.init (some "http://x") true)
      (RestDataPost.init (some "http://x") (some "foo=bar") true) 0
      (.response true 200 "x")
      { method := "POST", url := some "http://x", body := some "foo=bar",
        timeout := 10, verify := true }
      { method := "GET", url := some "http://x", body := none, timeout := 10,
        verify := true }).2.1 rfl,
   (c7_fixed_payload (some "http://x") (some "foo=bar") true
      (RestDataGet.init (some "http://x") true)
      (RestDataPost.init (some "http://x") (some "foo=bar") true) 0
      (.response true 200 "x")
      { method := "POST", url := some "http://x", body := some "foo=bar",
        timeout := 10, verify := true }
      { method := "GET", url := some "http://x", body := none, timeout := 10,
        verify := true }).2.2.1
      { resource := some "http://x", payload := some "foo=bar", verifySsl := true,
        data := .str "x", throttle := { lastRun := some 0 } } rfl,
   (c7_fixed_payload (some "http://x") (some "foo=bar") true
      (RestDataGet.init (some "http://x") true)
      (RestDataPost.init (some "http://x") (some "foo=bar") true) 0
      (.response true 200 "x")
      { method := "POST", url := some "http://x", body := some "foo=bar",
        timeout := 10, verify := true }
      { method := "GET", url := some "http://x", body := none, timeout := 10,
        verify := true }).2.2.2 rfl⟩

/-- Publishing is a pure function of the fetcher data and the configured
template, so a state that publishing produced republishes to itself. -/
lemma publish_idem (s s' : RestSensor) (h : RestSensor.publish s = Except.ok s') :
    RestSensor.publish s' = Except.ok s' := by
  cases hd : s.rest.data with
  | dict err =>
    cases err with
    | none =>
      cases hvt : s.valueTemplate with
      | none =>
        simp [RestSensor.publish, hd, hvt] at h
        subst h
        simp [RestSensor.publish, hd, hvt]
      | some t =>
        simp [RestSensor.publish, hd, hvt] at h
        subst h
        simp [RestSensor.publish, hd, hvt]
    | some ev =>
      simp [RestSensor.publish, hd] at h
      subst h
      simp [RestSensor.publish, hd]
  | str v =>
    by_cases hv : pyInStr "error" v = true
    · simp [RestSensor.publish, hd, hv] at h
    · cases hvt : s.valueTemplate with
      | none =>
        simp [RestSensor.publish, hd, hv, hvt] at h
        subst h
        simp [RestSensor.publish, hd, hv, hvt]
      | some t =>
        simp [RestSensor.publish, hd, hv, hvt] at h
        subst h
        simp [RestSensor.publish, hd, hv, hvt]

/-- A fetcher call strictly inside the throttle window of its last executed
run issues no request and returns the state unchanged. -/
lemma restData_update_noop (rd : RestData) (l now : Nat) (res : ReqResult)
    (hl : rd.lastRun = some l) (hw : now < l + MIN_TIME_BETWEEN_UPDATES) :
    rd.update now res = (none, Except.ok rd) := by
  have hw60 : now < l + 60 := by
    simpa [MIN_TIME_BETWEEN_UPDATES] using hw
  cases rd with
  | get g =>
    simp [RestData.lastRun] at hl
    have hgate : throttleAllows MIN_TIME_BETWEEN_UPDATES g.throttle now = false := by
      simp [throttleAllows, hl, MIN_TIME_BETWEEN_UPDATES]
      omega
    simp [RestData.update, RestDataGet.update, hgate]
  | post p =>
    simp [RestData.lastRun] at hl
    have hgate : throttleAllows MIN_TIME_BETWEEN_UPDATES p.throttle now = false := by
      simp [throttleAllows, hl, MIN_TIME_BETWEEN_UPDATES]
      omega
    simp [RestData.update, RestDataPost.update, hgate]

/-- C8: if a call to `RestSensor.update` returns normally and a second call
is made strictly within the minimum interval of the last executed fetch, the
second call returns the very same sensor state — in particular the published
state after the second call is identical to the one after the first. -/
theorem c8_second_call_in_window_identical (s s1 : RestSensor) (t1 t2 : Nat)
    (r1 r2 : ReqResult) (l : Nat)
    (h1 : (s.update t1 r1).2 = Except.ok s1)
    (hl : s1.rest.lastRun = some l)
    (hw : t2 < l + MIN_TIME_BETWEEN_UPDATES) :
    (s1.update t2 r2).2 = Except.ok s1 := by
  have hpub : RestSensor.publish s1 = Except.ok s1 := by
    unfold RestSensor.update at h1
    cases hru : s.rest.update t1 r1 with
    | mk req exc =>
      cases exc with
      | error e =>
        rw [hru] at h1
        simp at h1
      | ok rest2 =>
        rw [hru] at h1
        simp at h1
        exact publish_idem _ _ h1
  unfold RestSensor.update
  rw [restData_update_noop s1.rest l t2 r2 hl hw]
  simpa using hpub

/-- C8 witness: a successful first fetch of body `42.5` at time 0, then a
second call at time 30 — inside the 60-second window — returns the identical
sensor state even though the simulated network would now fail. -/
theorem c8_second_call_in_window_identical_witness :
    (RestSensor.update
        { name := "REST Sensor", unitOfMeasurement := none, valueTemplate := none,
          rest := .get { resource := some "http://x", verifySsl := true,
                         data := .str "42.5", throttle := { lastRun := some 0 } },
          state := .str "42.5" } 30 (.exc .connectionError)).2
      = Except.ok
          { name := "REST Sensor", unitOfMeasurement := none, valueTemplate := none,
            rest := .get { resource := some "http://x", verifySsl := true,
                           data := .str "42.5", throttle := { lastRun := some 0 } },
            state := .str "42.5" } :=
  c8_second_call_in_window_identical
    { name := "REST Sensor", unitOfMeasurement := none, valueTemplate := none,
      rest := .get { resource := some "http://x", verifySsl := true,
                     data := .dict none, throttle := { lastRun := none } },
      state := .str "n/a" }
    { name := "REST Sensor", unitOfMeasurement := none, valueTemplate := none,
      rest := .get { resource := some "http://x", verifySsl := true,
                     data := .str "42.5", throttle := { lastRun := some 0 } },
      state := .str "42.5" }
    0 30 (.response true 200 "42.5") (.exc .connectionError) 0 rfl rfl (by decide)

/-- C9: the claim says the state published right after construction is never
the initial placeholder. At the concrete input — a successful first fetch
whose body is itself the string `n/a` — the constructor completes and the
published state equals the placeholder string `n/a`. -/
theorem c9_placeholder_counterexample :
    (RestSensor.init (.get (RestDataGet.init (some "http://x") true)) "REST Sensor"
        none none 0 (.response true 200 "n/a")).2
      = Except.ok
          { name := "REST Sensor", unitOfMeasurement := none, valueTemplate := none,
            rest := .get { resource := some "http://x", verifySsl := true,
                           data := .str "n/a", throttle := { lastRun := some 0 } },
            state := .str "n/a" } :=
  rfl

/-- C9 amended: construction with a fresh GET fetcher performs one
synchronous fetch (the throttle has never run, so a request is always
issued) and publishes its outcome before returning: the raw body when no
template is configured, the template rendering when one is, and the sentinel
on a connection failure — a result that can coincide with the placeholder
string only when the fetch outcome itself is that string. -/
theorem c9_first_fetch_publish (resource : Option String) (ssl : Bool)
    (name : String) (unit : Option String) (vt : Option Tmpl) (now : Nat)
    (res : ReqResult) :
    ((RestSensor.init (.get (RestDataGet.init resource ssl)) name unit vt now
        res).1).isSome = true
    ∧ (∀ ok code body, pyInStr "error" body = false →
        (RestSensor.init (.get (RestDataGet.init resource ssl)) name unit none now
            (.response ok code body)).2
          = Except.ok
              { name := name, unitOfMeasurement := unit, valueTemplate := none,
                rest := .get { resource := resource, verifySsl := ssl,
                               data := .str body, throttle := { lastRun := some now } },
                state := .str body })
    ∧ (∀ ok code body (t : Tmpl), pyInStr "error" body = false →
        (RestSensor.init (.get (RestDataGet.init resource ssl)) name unit (some t) now
            (.response ok code body)).2
          = Except.ok
              { name := name, unitOfMeasurement := unit, valueTemplate := some t,
                rest := .get { resource := resource, verifySsl := ssl,
                               data := .str body, throttle := { lastRun := some now } },
                state := .str (renderWithPossibleJsonValue t (.str body) "N/A") })
    ∧ (RestSensor.init (.get (RestDataGet.init resource ssl)) name unit vt now
          (.exc .connectionError)).2
        = Except.ok
            { name := name, unitOfMeasurement := unit, valueTemplate := vt,
              rest := .get { resource := resource, verifySsl := ssl,
                             data := .dict (some "N/A"),
                             throttle := { lastRun := some now } },
              state := .str "N/A" } := by
  refine ⟨?_, ?_, ?_, ?_⟩
  · cases hf : restDataFetch (RData.dict none) res with
    | ok d =>
      simp [RestSensor.init, RestSensor.update, RestData.update, RestDataGet.update,
        RestDataGet.init, throttleAllows, hf]
    | error e =>
      simp [RestSensor.init, RestSensor.update, RestData.update, RestDataGet.update,
        RestDataGet.init, throttleAllows, hf]
  · intro ok code body hb
    simp [RestSensor.init, RestSensor.update, RestData.update, RestData.data,
      RestDataGet.update, RestDataGet.init, throttleAllows, restDataFetch,
      RData.hasError, RestSensor.publish, hb]
  · intro ok code body t hb
    simp [RestSensor.init, RestSensor.update, RestData.update, RestData.data,
      RestDataGet.update, RestDataGet.init, throttleAllows, restDataFetch,
      RData.hasError, RestSensor.publish, hb]
  · simp [RestSensor.init, RestSensor.update, RestData.update, RestData.data,
      RestDataGet.update, RestDataGet.init, throttleAllows, restDataFetch,
      RData.hasError, RestSensor.publish, PyExc.isConnErr]

/-- C9 witness: concrete evaluations of the amended statement — the first
fetch is issued; body `42.5` is published raw without a template and through
a template rendering `10`; a connection failure publishes the sentinel. -/
theorem c9_first_fetch_publish_witness :
    ((RestSensor.init (.get (RestDataGet.init (some "http://x") true)) "REST Sensor"
        none none 0 (.response true 200 "42.5")).1).isSome = true
    ∧ (RestSensor.init (.get (RestDataGet.init (some "http://x") true)) "REST Sensor"
        none none 0 (.response true 200 "42.5")).2
      = Except.ok
          { name := "REST Sensor", unitOfMeasurement := none, valueTemplate := none,
            rest := .get { resource := some "http://x", verifySsl := true,
                           data := .str "42.5", throttle := { lastRun := some 0 } },
            state := .str "42.5" }
    ∧ (RestSensor.init (.get (RestDataGet.init (some "http://x") true)) "REST Sensor"
        none (some (fun _ => some "10")) 0 (.response true 200 "42.5")).2
      = Except.ok
          { name := "REST Sensor", unitOfMeasurement := none,
            valueTemplate := some (fun _ => some "10"),
            rest := .get { resource := some "http://x", verifySsl := true,
                           data := .str "42.5", throttle := { lastRun := some 0 } },
            state := .str (renderWithPossibleJsonValue (fun _ => some "10")
                            (.str "42.5") "N/A") }
    ∧ (RestSensor.init (.get (RestDataGet.init (some "http://x") true)) "REST Sensor"
        none none 0 (.exc .connectionError)).2
      = Except.ok
          { name := "REST Sensor", unitOfMeasurement := none, valueTemplate := none,
            rest := .get { resource := some "http://x", verifySsl := true,
                           data := .dict (some "N/A"),
                           throttle := { lastRun := some 0 } },
            state := .str "N/A" } :=
  ⟨(c9_first_fetch_publish (some "http://x") true "REST Sensor" none none 0
      (.response true 200 "42.5")).1,
   (c9_first_fetch_publish (some "http://x") true "REST Sensor" none none 0
      (.response true 200 "42.5")).2.1 true 200 "42.5" rfl,
   (c9_first_fetch_publish (some "http://x") true "REST Sensor" none none 0
      (.response true 200 "42.5")).2.2.1 true 200 "42.5" (fun _ => some "10") rfl,
   (c9_first_fetch_publish (some "http://x") true "REST Sensor" none none 0
      (.exc .connectionError)).2.2.2⟩

end RestPlatform
